import Mathlib

/-!
Verification development for the nanda-http-gateway repository.

The definitions below are a shallow embedding of the TypeScript sources:
  - src/services/evmauth.service.ts      (EVMAuthService)
  - src/services/transport.manager.ts    (TransportManager, full multi-transport version)
  - src/services/connection.manager.ts   (ConnectionManager)
  - src/api/controllers/services.controller.ts    (ServicesController.connectToService)
  - src/api/controllers/connections.controller.ts (ConnectionsController.executeTool)

Modelling conventions:
  - Machine time (`Date.now()`, `new Date()`) is a `Nat` of milliseconds passed in as
    `now`; the successive clock reads inside one call are modelled as the same instant.
  - Every outbound network interaction (axios requests, WebSocket traffic, EventSource
    streams, blockchain RPC) is an `Env` field giving that interaction's outcome;
    `Except String _` carries the thrown error's `message` on the failure side.
  - JS `Map` objects become association lists with `mapGet` / `mapSet` / `mapDel`.
  - JS falsy-`||` defaulting on strings becomes `jsOr`; truthiness of an optional
    string becomes `jsTruthyOpt`.
  - Thrown `AppError`s become `Except.error` of the `AppError` structure; plain
    `Error` objects thrown inside a service become `Except.error` of their message.
  - `NetEvent` values mark entry into the network-performing calls (credential
    verification, a transport-establishment attempt, the discovery call, a tool
    dispatch); a rejected request that performs no network work yields `[]`.
-/

namespace Nanda

/-! ## JS-style string helpers -/

/-- JS falsy `||` on strings: `a || b` picks `b` when `a` is the empty string. -/
def jsOr (a b : String) : String := if a = "" then b else a

/-- Truthiness of an optional string (`undefined` and `""` are falsy). -/
def jsTruthyOpt (o : Option String) : Bool :=
  match o with
  | some s => s != ""
  | none => false

/-- Template-literal rendering of a possibly-undefined string. -/
def optRawStr (o : Option String) : String :=
  match o with
  | some s => s
  | none => "undefined"

/-- `pat` is a leading segment of `s` (character lists). -/
def hasPre : List Char → List Char → Bool
  | _, [] => true
  | [], _ :: _ => false
  | c :: cs, d :: ds => c == d && hasPre cs ds

/-- Substring membership on character lists. -/
def containsL : List Char → List Char → Bool
  | [], pat => pat.isEmpty
  | c :: rest, pat => hasPre (c :: rest) pat || containsL rest pat

/-- JS `String.prototype.includes`. -/
def includes (s pat : String) : Bool := containsL s.data pat.data

/-- Replace the first occurrence of `pat` in `s` by `r` (JS `String.prototype.replace`
with a plain-string pattern). -/
def replaceFirstL : List Char → List Char → List Char → List Char
  | [], _, _ => []
  | c :: rest, pat, r =>
    if hasPre (c :: rest) pat then r ++ List.drop pat.length (c :: rest)
    else c :: replaceFirstL rest pat r

/-- JS `s.replace(pat, r)` (first occurrence only). -/
def jsReplace (s pat r : String) : String := ⟨replaceFirstL s.data pat.data r.data⟩

/-- Lowercase a string character by character (JS `toLowerCase` on ASCII data). -/
def lowerStr (s : String) : String := ⟨s.data.map Char.toLower⟩

/-- `endpoint.endsWith('/') ? endpoint.slice(0, -1) : endpoint`. -/
def stripTrailingSlash (s : String) : String :=
  match s.data.reverse with
  | '/' :: rest => ⟨rest.reverse⟩
  | _ => s

/-- JS `s.slice(-n)`: the last `n` characters (the whole string when shorter). -/
def lastN (s : String) (n : Nat) : String := ⟨(s.data.reverse.take n).reverse⟩

/-- Decimal digit value of a character. -/
def digitVal (c : Char) : Option Nat :=
  if '0' ≤ c ∧ c ≤ '9' then some (c.toNat - 48) else none

/-- Accumulate the leading decimal digits. -/
def parseIntAux : List Char → Nat → Nat
  | [], acc => acc
  | c :: rest, acc =>
    match digitVal c with
    | some d => parseIntAux rest (acc * 10 + d)
    | none => acc

/-- JS `parseInt(s, 10)`; `none` models `NaN` (no leading digit). -/
def jsParseInt (s : String) : Option Nat :=
  match s.data with
  | c :: _ => if (digitVal c).isSome then some (parseIntAux s.data 0) else none
  | [] => none

/-- `padStart(n, '0')` on a string of hex digits. -/
def padStartZeros (s : String) (n : Nat) : String :=
  ⟨List.replicate (n - s.data.length) '0' ++ s.data⟩

/-! ## Association-list maps (JS `Map`) -/

/-- `Map.prototype.get`. -/
def mapGet {α : Type} : List (String × α) → String → Option α
  | [], _ => none
  | (k', v) :: rest, k => if k' = k then some v else mapGet rest k

/-- `Map.prototype.set` (replaces an existing entry for the key). -/
def mapSet {α : Type} : List (String × α) → String → α → List (String × α)
  | [], k, v => [(k, v)]
  | (k', v') :: rest, k, v =>
    if k' = k then (k, v) :: rest else (k', v') :: mapSet rest k v

/-- `Map.prototype.delete`; a JS `Map` never holds two entries for one key, so
removing every occurrence coincides with removing the entry. -/
def mapDel {α : Type} : List (String × α) → String → List (String × α)
  | [], _ => []
  | (k', v') :: rest, k =>
    if k' = k then mapDel rest k else (k', v') :: mapDel rest k

theorem mapGet_mapSet_self {α : Type} (m : List (String × α)) (k : String) (v : α) :
    mapGet (mapSet m k v) k = some v := by
  induction m with
  | nil => simp [mapSet, mapGet]
  | cons hd tl ih =>
    obtain ⟨k', v'⟩ := hd
    by_cases h : k' = k <;> simp [mapSet, mapGet, h, ih]

theorem mapGet_mapDel_self {α : Type} (m : List (String × α)) (k : String) :
    mapGet (mapDel m k) k = none := by
  induction m with
  | nil => simp [mapDel, mapGet]
  | cons hd tl ih =>
    obtain ⟨k', v'⟩ := hd
    by_cases h : k' = k <;> simp [mapDel, mapGet, h, ih]

/-! ## Error and result shapes -/

/-- Structured `details` payloads attached to `AppError`s by this code base. -/
inductive Details where
  | none
  | availableTools (names : List String)
  | connectionFailed (serviceId transport : String)
  | evmauthRequired (requiredFields : List String) (contractAddress : String)
  | tokenNotOwned (walletAddress contractAddress tokenId : String)
  deriving DecidableEq

/-- `AppError` from src/api/middleware/error.middleware.ts. -/
structure AppError where
  statusCode : Nat
  message : String
  code : String
  details : Details := Details.none
  deriving DecidableEq

/-- The machine-readable code of a failed operation, if it failed. -/
def errCode {α : Type} : Except AppError α → Option String
  | .error e => some e.code
  | .ok _ => none

/-- Whether a fallible outcome is a failure. -/
def isErr {ε α : Type} : Except ε α → Bool
  | .error _ => true
  | .ok _ => false

/-- Body of a JSON-RPC-ish HTTP response: `response.data.error` (its message, when the
remote reported a protocol-level failure payload) and `response.data.result`. -/
structure RpcReply where
  error : Option String := none
  result : String := ""
  deriving DecidableEq

/-- Events marking entry into network-performing calls. -/
inductive NetEvent where
  | verify
  | transportAttempt (transport : String)
  | discovery (transport : String)
  | dispatch (transport toolName : String)
  deriving DecidableEq

/-! ## Data model (src/types/index.ts) -/

/-- `EVMAuthRequest`. -/
structure EVMAuthRequest where
  walletAddress : String
  contractAddress : Option String := none
  tokenId : Option String := none
  signature : Option String := none
  message : Option String := none
  deriving DecidableEq

/-- `EVMAuthSession`; timestamps are milliseconds. -/
structure EVMAuthSession where
  walletAddress : String
  contractAddress : String
  tokenId : String
  verified : Bool
  verifiedAt : Nat
  expiresAt : Nat
  deriving DecidableEq

/-- `ToolDefinition`; the JSON input schema is summarized as text (no claim
inspects schema contents). -/
structure ToolDefinition where
  name : String
  description : String := ""
  inputSchema : String := "object"
  deriving DecidableEq

/-- Connection lifecycle states of `ServiceConnection.state`. -/
inductive ConnState where
  | initializing
  | authenticating
  | connected
  | disconnected
  | failed
  deriving DecidableEq

/-- `ServiceConnection` (the `metadata` object is flattened into `tools` and
`capabilities`). -/
structure ServiceConnection where
  id : String
  userId : Option String := none
  serviceId : String
  serviceName : String
  state : ConnState
  transport : String
  endpoint : String
  evmAuth : Option EVMAuthSession := none
  tools : List ToolDefinition := []
  capabilities : List String := []
  createdAt : Nat
  lastUsed : Nat
  deriving DecidableEq

/-- `NANDAService` fields used by `connectToService` (absent optional strings and
arrays are modelled by `""` / `[]`, which are falsy exactly like `undefined` there). -/
structure NANDAService where
  id : String
  name : String
  tags : List String := []
  url : String := ""
  endpoint_url : String := ""
  description : String := ""
  protocols : List String := []
  transport_type : String := ""
  deriving DecidableEq

/-- The live wire handle of transport.manager.ts (`TransportConnection`); the
`client` / `eventSource` / `websocket` handles are modelled by presence flags. -/
structure TransportConnection where
  id : String
  endpoint : String
  transport : String
  client : Bool := false
  eventSource : Bool := false
  websocket : Bool := false
  deriving DecidableEq

/-- Outcomes of external interactions; each field gives the result of one kind of
outbound call, keyed by the URL/tool it targets. -/
structure Env where
  /-- `process.env.EVMAUTH_CONTRACT_ADDRESS`. -/
  envContract : String
  /-- `GET {endpoint}/health` probe succeeds. -/
  healthGet : String → Bool
  /-- `POST {endpoint}/message {method:"ping"}` probe succeeds. -/
  messagePing : String → Bool
  /-- `GET {sseUrl}` reachability test (streamed). -/
  sseGet : String → Except String Unit
  /-- WebSocket open handshake at the given ws URL. -/
  wsOpen : String → Except String Unit
  /-- `POST {endpoint}/call {method:"tools/list"}`, mapped to tool definitions. -/
  callToolsList : String → Except String (List ToolDefinition)
  /-- `GET {endpoint}/tools`. -/
  getTools : String → Except String (List ToolDefinition)
  /-- `POST {endpoint}/message {method:"tools/list"}`. -/
  messageToolsList : String → Except String (List ToolDefinition)
  /-- WebSocket `tools/list` round trip (timeout and error events are failures). -/
  wsToolsList : String → Except String (List ToolDefinition)
  /-- `POST {endpoint}/call {method:"tools/call", params:{name, arguments}}`. -/
  callToolsCall : String → String → Except String RpcReply
  /-- `POST {endpoint}/tools/{toolName}` (alternative execution endpoint). -/
  altToolPost : String → String → Except String RpcReply
  /-- `POST {endpoint}/message {method:"tools/call"}`. -/
  messageToolsCall : String → String → Except String RpcReply
  /-- WebSocket `tools/call` round trip by request id. -/
  wsToolsCall : String → String → Except String RpcReply
  /-- `POST {baseUrl}/call` sideband for the SSE transport. -/
  sseCallPost : String → String → Except String RpcReply
  /-- `POST {url}` to one of the SSE alternative execution endpoints. -/
  sseAltPost : String → String → Except String RpcReply
  /-- `eth_call` JSON-RPC to the Radius endpoint (contract, call data). -/
  ethCall : String → String → Except String RpcReply

/-! ## EVMAuthService (src/services/evmauth.service.ts) -/

namespace EVMAuthService

/-- Session cache key `${walletAddress}:${contractAddress}:${tokenId}`. -/
def sessionKey (walletAddress contractAddress tokenId : String) : String :=
  walletAddress ++ ":" ++ contractAddress ++ ":" ++ tokenId

/-- `/^0x[a-fA-F0-9]{40}$/`. -/
def isEthAddress (s : String) : Bool :=
  s.data.length == 42 && hasPre s.data ('0' :: 'x' :: []) &&
    (s.data.drop 2).all (fun c =>
      ('0' ≤ c && c ≤ '9') || ('a' ≤ c && c ≤ 'f') || ('A' ≤ c && c ≤ 'F'))

/-- `validateAddresses`: the first invalid address aborts with its `AppError`. -/
def validateAddresses (walletAddress contractAddress : String) : Option AppError :=
  if !isEthAddress walletAddress then
    some ⟨400, "Invalid wallet address format", "INVALID_WALLET_ADDRESS", Details.none⟩
  else if !isEthAddress contractAddress then
    some ⟨400, "Invalid contract address format", "INVALID_CONTRACT_ADDRESS", Details.none⟩
  else
    none

/-- `encodeOwnerOfCall`: selector `0x6352211e` plus
`parseInt(tokenId, 10).toString(16).padStart(64, '0')`. -/
def encodeOwnerOfCall (tokenId : String) : String :=
  let tokenIdHex : String :=
    match jsParseInt tokenId with
    | some n => ⟨Nat.toDigits 16 n⟩
    | none => "NaN"
  "0x6352211e" ++ padStartZeros tokenIdHex 64

/-- `decodeAddress`: `0x` plus the last 40 characters of the RPC result. -/
def decodeAddress (hexResult : String) : String := "0x" ++ lastN hexResult 40

/-- `verifyTokenOwnership`: RPC failure or RPC-reported error yields `false`;
otherwise the decoded owner is compared to the wallet case-insensitively. -/
def verifyTokenOwnership (env : Env) (walletAddress contractAddress tokenId : String) :
    Bool :=
  match env.ethCall contractAddress (encodeOwnerOfCall tokenId) with
  | .error _ => false
  | .ok reply =>
    match reply.error with
    | some _ => false
    | none =>
      let ownerAddress := decodeAddress reply.result
      lowerStr ownerAddress == lowerStr walletAddress

/-- `verifySignature` (placeholder in the source): valid iff length exceeds 100. -/
def verifySignature (_message signature _expectedAddress : String) : Bool :=
  signature.data.length > 100

/-- `verifyAuth`: validate addresses, check token ownership on chain, optionally
check the signature, then mint and cache a fresh 24-hour session. The source
asserts `contractAddress!`; its absent case is rendered by `getD ""` (all callers
in the repository supply it). -/
def verifyAuth (env : Env) (now : Nat) (sessions : List (String × EVMAuthSession))
    (request : EVMAuthRequest) :
    Except AppError EVMAuthSession × List (String × EVMAuthSession) :=
  let walletAddress := request.walletAddress
  let contractAddress := request.contractAddress.getD ""
  match validateAddresses walletAddress contractAddress with
  | some e => (.error e, sessions)
  | none =>
    if !verifyTokenOwnership env walletAddress contractAddress
        (jsOr (request.tokenId.getD "") "0") then
      (.error ⟨403, "Token ownership verification failed", "EVMAUTH_TOKEN_NOT_OWNED",
        Details.tokenNotOwned walletAddress contractAddress (optRawStr request.tokenId)⟩,
       sessions)
    else if jsTruthyOpt request.signature && jsTruthyOpt request.message &&
        !verifySignature (request.message.getD "") (request.signature.getD "")
          walletAddress then
      (.error ⟨403, "Signature verification failed", "EVMAUTH_INVALID_SIGNATURE",
        Details.none⟩, sessions)
    else
      let session : EVMAuthSession :=
        { walletAddress := walletAddress
          contractAddress := contractAddress
          tokenId := jsOr (request.tokenId.getD "") "0"
          verified := true
          verifiedAt := now
          expiresAt := now + 24 * 60 * 60 * 1000 }
      (.ok session,
       mapSet sessions
         (sessionKey walletAddress (optRawStr request.contractAddress)
           (optRawStr request.tokenId)) session)

/-- `getSession`: a cached session is returned only while `expiresAt` is in the
future; an expired entry is deleted and `null` returned. -/
def getSession (now : Nat) (sessions : List (String × EVMAuthSession))
    (walletAddress contractAddress tokenId : String) :
    Option EVMAuthSession × List (String × EVMAuthSession) :=
  let key := sessionKey walletAddress contractAddress tokenId
  match mapGet sessions key with
  | some session =>
    if now < session.expiresAt then (some session, sessions)
    else (none, mapDel sessions key)
  | none => (none, sessions)

/-- `isSessionValid`. -/
def isSessionValid (now : Nat) (sessions : List (String × EVMAuthSession))
    (walletAddress contractAddress tokenId : String) : Bool :=
  match mapGet sessions (sessionKey walletAddress contractAddress tokenId) with
  | none => false
  | some session => now < session.expiresAt

end EVMAuthService

/-! ## TransportManager (src/services/transport.manager.ts) -/

/-- Parameters of `TransportManager.connect`; the optional `connectionId` is already
resolved to the id the caller passes alongside (`params.connectionId ||
Date.now().toString()`). -/
structure ConnectParams where
  endpoint : String
  transport : String
  timeout : Nat
  evmAuth : Option EVMAuthSession := none
  deriving DecidableEq

namespace TransportManager

/-- `https://`→`wss://`, `http://`→`ws://`, then `+ '/ws'`. -/
def wsUrl (endpoint : String) : String :=
  jsReplace (jsReplace endpoint "https://" "wss://") "http://" "ws://" ++ "/ws"

/-- The SSE stream URL: trailing slash stripped, then `+ '/sse'`. -/
def sseUrl (endpoint : String) : String := stripTrailingSlash endpoint ++ "/sse"

/-- `connectHTTP`: `axios.create` cannot fail; the `GET /health` probe runs in a
`try`/`catch` whose failure branch only logs and proceeds. -/
def connectHTTP (env : Env) (p : ConnectParams) : Except String Unit :=
  match env.healthGet p.endpoint with
  | true => .ok ()
  | false => .ok ()

/-- `connectStreamableHTTP`: the `POST /message` ping probe likewise only logs its
failure. -/
def connectStreamableHTTP (env : Env) (p : ConnectParams) : Except String Unit :=
  match env.messagePing p.endpoint with
  | true => .ok ()
  | false => .ok ()

/-- `connectWebSocket`: the open handshake must succeed; an error or the
connection timeout rejects with its message. -/
def connectWebSocket (env : Env) (p : ConnectParams) : Except String Unit :=
  match env.wsOpen (wsUrl p.endpoint) with
  | .ok _ => .ok ()
  | .error m => .error ("WebSocket connection failed: " ++ m)

/-- `connectSSE`: a failing `GET {sseUrl}` reachability test throws and aborts
establishment; once it passes, the EventSource promise always resolves (its own
timeout resolves anyway, and the error handler never rejects). -/
def connectSSE (env : Env) (p : ConnectParams) : Except String Unit :=
  match env.sseGet (sseUrl p.endpoint) with
  | .error m => .error ("SSE endpoint not reachable: " ++ m)
  | .ok _ => .ok ()

/-- `TransportManager.connect`: a single `switch` on the requested transport; a
successful case stores the `TransportConnection` in the manager's map. One
`transportAttempt` event marks each case that performs network I/O. -/
def connect (env : Env) (connections : List (String × TransportConnection))
    (connectionId : String) (p : ConnectParams) :
    Except String TransportConnection × List (String × TransportConnection) ×
      List NetEvent :=
  let conn0 : TransportConnection :=
    { id := connectionId, endpoint := p.endpoint, transport := p.transport }
  match p.transport with
  | "http" =>
    match connectHTTP env p with
    | .ok _ =>
      let conn := { conn0 with client := true }
      (.ok conn, mapSet connections connectionId conn,
       [NetEvent.transportAttempt "http"])
    | .error m => (.error m, connections, [NetEvent.transportAttempt "http"])
  | "websocket" =>
    match connectWebSocket env p with
    | .ok _ =>
      let conn := { conn0 with websocket := true }
      (.ok conn, mapSet connections connectionId conn,
       [NetEvent.transportAttempt "websocket"])
    | .error m => (.error m, connections, [NetEvent.transportAttempt "websocket"])
  | "sse" =>
    match connectSSE env p with
    | .ok _ =>
      let conn := { conn0 with eventSource := true }
      (.ok conn, mapSet connections connectionId conn,
       [NetEvent.transportAttempt "sse"])
    | .error m => (.error m, connections, [NetEvent.transportAttempt "sse"])
  | "streamable-http" =>
    match connectStreamableHTTP env p with
    | .ok _ =>
      let conn := { conn0 with client := true }
      (.ok conn, mapSet connections connectionId conn,
       [NetEvent.transportAttempt "streamable-http"])
    | .error m =>
      (.error m, connections, [NetEvent.transportAttempt "streamable-http"])
  | other => (.error ("Unsupported transport: " ++ other), connections, [])

/-- `getStarbucksTools` hardcoded fallback. -/
def getStarbucksTools : List ToolDefinition :=
  [{ name := "requestinfo"
     description :=
       "Get Starbucks company information with EVMAuth verification on Radius blockchain"
     inputSchema := "object: walletAddress, contractAddress, tokenId, category" }]

/-- `discoverHTTPTools`: `POST /call tools/list`, falling back to `GET /tools`,
falling back to the Starbucks list (railway.app) or `[]`; it never throws once a
client exists. -/
def discoverHTTPTools (env : Env) (connection : TransportConnection) :
    Except String (List ToolDefinition) :=
  if !connection.client then .error "HTTP client not initialized"
  else
    match env.callToolsList connection.endpoint with
    | .ok tools => .ok tools
    | .error _ =>
      match env.getTools connection.endpoint with
      | .ok tools => .ok tools
      | .error _ =>
        if includes connection.endpoint "railway.app" then .ok getStarbucksTools
        else .ok []

/-- `discoverSSETools`: hardcoded per-endpoint tool lists (SSE cannot carry a live
discovery call); unrecognized endpoints yield `[]`. -/
def discoverSSETools (connection : TransportConnection) :
    Except String (List ToolDefinition) :=
  if !connection.eventSource then .error "SSE connection not initialized"
  else if includes connection.endpoint "3.133.113.164" then
    .ok [{ name := "convert_currency"
           description := "Convert an amount from one currency to another"
           inputSchema := "object: from, to, amount" }]
  else if includes connection.endpoint "awsapprunner.com" then
    .ok [{ name := "add", description := "Add two numbers"
           inputSchema := "object: a, b" },
         { name := "multiply", description := "Multiply two numbers"
           inputSchema := "object: a, b" }]
  else .ok []

/-- `discoverWebSocketTools`: a `tools/list` request over the socket; a reported
error or the 10-second timeout rejects. -/
def discoverWebSocketTools (env : Env) (connection : TransportConnection) :
    Except String (List ToolDefinition) :=
  if !connection.websocket then .error "WebSocket connection not initialized"
  else env.wsToolsList connection.endpoint

/-- `discoverStreamableHTTPTools`: `POST /message tools/list`; any failure is
caught and yields `[]`. -/
def discoverStreamableHTTPTools (env : Env) (connection : TransportConnection) :
    Except String (List ToolDefinition) :=
  if !connection.client then .error "Streamable HTTP client not initialized"
  else
    match env.messageToolsList connection.endpoint with
    | .ok tools => .ok tools
    | .error _ => .ok []

/-- `discoverTools`: dispatch per transport inside a `try`; on any throw the catch
returns the Starbucks list for railway.app endpoints and otherwise rethrows
`TOOL_DISCOVERY_FAILED` (only its message reaches createConnection's catch). -/
def discoverTools (env : Env) (connection : TransportConnection) :
    Except String (List ToolDefinition) :=
  let attempt : Except String (List ToolDefinition) :=
    match connection.transport with
    | "http" => discoverHTTPTools env connection
    | "sse" => discoverSSETools connection
    | "websocket" => discoverWebSocketTools env connection
    | "streamable-http" => discoverStreamableHTTPTools env connection
    | t => .error ("Tool discovery not implemented for " ++ t)
  match attempt with
  | .ok tools => .ok tools
  | .error _ =>
    if includes connection.endpoint "railway.app" then .ok getStarbucksTools
    else .error "Failed to discover tools"

/-- Normalized tool-execution payload: `http` (and the SSE alternative endpoints)
return the whole `response.data`; the other transports return `result`. -/
inductive ToolOut where
  | body (r : RpcReply)
  | value (s : String)
  deriving DecidableEq

/-- `executeHTTPTool`: `POST /call tools/call`, whose `response.data` is returned
unchecked; on failure `POST /tools/{name}` is tried; the final throw wraps the
first error's message. -/
def executeHTTPTool (env : Env) (connection : TransportConnection)
    (toolName : String) : Except String ToolOut :=
  if !connection.client then .error "HTTP client not initialized"
  else
    match env.callToolsCall connection.endpoint toolName with
    | .ok reply => .ok (ToolOut.body reply)
    | .error m =>
      match env.altToolPost (connection.endpoint ++ "/tools/" ++ toolName) toolName with
      | .ok reply => .ok (ToolOut.body reply)
      | .error _ => .error ("Tool execution failed: " ++ m)

/-- `executeStreamableHTTPTool`: `POST /message tools/call`; a remote error payload
is thrown and, like a network failure, re-thrown with the transport prefix. -/
def executeStreamableHTTPTool (env : Env) (connection : TransportConnection)
    (toolName : String) : Except String ToolOut :=
  if !connection.client then .error "Streamable HTTP client not initialized"
  else
    match env.messageToolsCall connection.endpoint toolName with
    | .ok reply =>
      match reply.error with
      | some m =>
        .error ("Streamable HTTP tool execution failed: " ++
          jsOr m "Tool execution failed")
      | none => .ok (ToolOut.value reply.result)
    | .error m => .error ("Streamable HTTP tool execution failed: " ++ m)

/-- `executeWebSocketTool`: correlated by request id; a remote error payload or
the 30-second timeout rejects. -/
def executeWebSocketTool (env : Env) (connection : TransportConnection)
    (toolName : String) : Except String ToolOut :=
  if !connection.websocket then .error "WebSocket connection not initialized"
  else
    match env.wsToolsCall connection.endpoint toolName with
    | .ok reply =>
      match reply.error with
      | some m => .error ("Tool execution error: " ++ jsOr m "Unknown error")
      | none => .ok (ToolOut.value reply.result)
    | .error m => .error m

/-- The `for`-loop over the three SSE alternative execution endpoints; exhausting
them throws the `SSE_EXECUTION_LIMITED` `AppError`, of which only the message
survives the outer catch. -/
def sseAlternatives (env : Env) (baseUrl toolName : String) : Except String ToolOut :=
  match env.sseAltPost (baseUrl ++ "/tools/" ++ toolName) toolName with
  | .ok reply => .ok (ToolOut.body reply)
  | .error _ =>
    match env.sseAltPost (baseUrl ++ "/execute") toolName with
    | .ok reply => .ok (ToolOut.body reply)
    | .error _ =>
      match env.sseAltPost (baseUrl ++ "/tool") toolName with
      | .ok reply => .ok (ToolOut.body reply)
      | .error _ => .error "SSE tool execution failed - no working HTTP endpoints found"

/-- `executeSSETool`: sideband `POST {baseUrl}/call`; a network failure or a remote
error payload both fall into the alternative-endpoints loop. -/
def executeSSETool (env : Env) (connection : TransportConnection)
    (toolName : String) : Except String ToolOut :=
  if !connection.eventSource then .error "SSE connection not initialized"
  else
    let baseUrl := jsReplace connection.endpoint "/sse" ""
    match env.sseCallPost baseUrl toolName with
    | .ok reply =>
      match reply.error with
      | some _ => sseAlternatives env baseUrl toolName
      | none => .ok (ToolOut.value reply.result)
    | .error _ => sseAlternatives env baseUrl toolName

/-- `TransportManager.executeTool`: an unknown id fails with `CONNECTION_NOT_FOUND`
before the `try`; every error raised inside the per-transport dispatch — remote
protocol-level error payloads, network failures, even inner `AppError`s — is
wrapped by the catch into the single code `TOOL_EXECUTION_FAILED`. -/
def executeTool (env : Env) (connections : List (String × TransportConnection))
    (connectionId toolName : String) :
    Except AppError ToolOut × List NetEvent :=
  match mapGet connections connectionId with
  | none =>
    (.error ⟨404, "Transport connection not found", "CONNECTION_NOT_FOUND",
      Details.none⟩, [])
  | some connection =>
    let inner : Except String ToolOut :=
      match connection.transport with
      | "http" => executeHTTPTool env connection toolName
      | "sse" => executeSSETool env connection toolName
      | "websocket" => executeWebSocketTool env connection toolName
      | "streamable-http" => executeStreamableHTTPTool env connection toolName
      | t => .error ("Tool execution not implemented for " ++ t)
    match inner with
    | .ok out => (.ok out, [NetEvent.dispatch connection.transport toolName])
    | .error m =>
      (.error ⟨500, "Tool execution failed: " ++ m, "TOOL_EXECUTION_FAILED",
        Details.none⟩, [NetEvent.dispatch connection.transport toolName])

/-- `TransportManager.disconnect`: a no-op on unknown ids, otherwise closes the
handle and removes the entry. -/
def disconnect (connections : List (String × TransportConnection))
    (connectionId : String) : List (String × TransportConnection) :=
  match mapGet connections connectionId with
  | none => connections
  | some _ => mapDel connections connectionId

theorem connectHTTP_ok (env : Env) (p : ConnectParams) :
    connectHTTP env p = Except.ok () := by
  unfold connectHTTP; cases env.healthGet p.endpoint <;> rfl

theorem connectStreamableHTTP_ok (env : Env) (p : ConnectParams) :
    connectStreamableHTTP env p = Except.ok () := by
  unfold connectStreamableHTTP; cases env.messagePing p.endpoint <;> rfl

end TransportManager

/-! ## ConnectionManager (src/services/connection.manager.ts) -/

/-- The three singleton-held mutable maps, bundled: the connection registry, the
EVMAuth session cache, and the transport-connection map. -/
structure GatewayState where
  connections : List (String × ServiceConnection) := []
  sessions : List (String × EVMAuthSession) := []
  transports : List (String × TransportConnection) := []
  deriving DecidableEq

/-- `CreateConnectionParams`. -/
structure CreateConnectionParams where
  serviceId : String
  serviceName : String
  endpoint : String
  transport : String
  evmAuth : Option EVMAuthRequest := none
  timeout : Option Nat := none
  verifyHealth : Option Bool := none
  userId : Option String := none
  deriving DecidableEq

namespace ConnectionManager

/-- The `catch` block of `createConnection`: mark the in-progress connection
`failed`, store it in the registry, and throw `CONNECTION_FAILED` wrapping the
caught error's message. -/
def connectionFailed (params : CreateConnectionParams) (connectionId : String)
    (connection : ServiceConnection) (st : GatewayState) (evs : List NetEvent)
    (msg : String) :
    Except AppError ServiceConnection × GatewayState × List NetEvent :=
  let failedConn := { connection with state := ConnState.failed }
  (.error ⟨500, "Failed to connect to service: " ++ msg, "CONNECTION_FAILED",
    Details.connectionFailed params.serviceId params.transport⟩,
   { st with connections := mapSet st.connections connectionId failedConn }, evs)

/-- Steps 2–5 of `createConnection`: acquire the transport session (the manager
passes no `connectionId`, so the transport map is keyed by `tmId`, the stringified
`Date.now()`), discover tools, then mark `connected` and register. -/
def createConnectionRest (env : Env) (tmId : String) (connectionId : String)
    (st : GatewayState) (params : CreateConnectionParams)
    (connection : ServiceConnection) (evs : List NetEvent) :
    Except AppError ServiceConnection × GatewayState × List NetEvent :=
  let connection := { connection with state := ConnState.authenticating }
  match TransportManager.connect env st.transports tmId
    { endpoint := params.endpoint, transport := params.transport,
      timeout := params.timeout.getD 30000, evmAuth := connection.evmAuth } with
  | (.error m, transports2, evs2) =>
    connectionFailed params connectionId connection
      { st with transports := transports2 } (evs ++ evs2) m
  | (.ok transportConnection, transports2, evs2) =>
    match TransportManager.discoverTools env transportConnection with
    | .error m =>
      connectionFailed params connectionId connection
        { st with transports := transports2 }
        (evs ++ evs2 ++ [NetEvent.discovery params.transport]) m
    | .ok tools =>
      let connection :=
        { connection with
          tools := tools
          capabilities := tools.map (fun tool => tool.name)
          state := ConnState.connected }
      (.ok connection,
       { st with
         transports := transports2
         connections := mapSet st.connections connectionId connection },
       evs ++ evs2 ++ [NetEvent.discovery params.transport])

/-- `createConnection`: build the `initializing` record, verify EVMAuth when the
caller supplied one (`contractAddress || process.env.EVMAUTH_CONTRACT_ADDRESS`,
`tokenId || '0'`), then proceed through transport acquisition and discovery.
`connectionId` is the generated uuid; `tmId` the transport manager's
`Date.now()` key. -/
def createConnection (env : Env) (now : Nat) (connectionId tmId : String)
    (st : GatewayState) (params : CreateConnectionParams) :
    Except AppError ServiceConnection × GatewayState × List NetEvent :=
  let connection : ServiceConnection :=
    { id := connectionId
      userId := params.userId
      serviceId := params.serviceId
      serviceName := params.serviceName
      state := ConnState.initializing
      transport := params.transport
      endpoint := params.endpoint
      tools := []
      capabilities := []
      createdAt := now
      lastUsed := now }
  match params.evmAuth with
  | some req =>
    let connection := { connection with state := ConnState.authenticating }
    match EVMAuthService.verifyAuth env now st.sessions
      { walletAddress := req.walletAddress
        contractAddress := some (jsOr (req.contractAddress.getD "") env.envContract)
        tokenId := some (jsOr (req.tokenId.getD "") "0")
        signature := req.signature
        message := req.message } with
    | (.error e, sessions2) =>
      connectionFailed params connectionId connection
        { st with sessions := sessions2 } [NetEvent.verify] e.message
    | (.ok evmAuthSession, sessions2) =>
      createConnectionRest env tmId connectionId { st with sessions := sessions2 }
        params { connection with evmAuth := some evmAuthSession } [NetEvent.verify]
  | none => createConnectionRest env tmId connectionId st params connection []

/-- `getConnection`. -/
def getConnection (st : GatewayState) (connectionId : String) :
    Option ServiceConnection :=
  mapGet st.connections connectionId

/-- `listConnections`: with a truthy `userId`, every connection of that user;
otherwise the connections whose state is `connected`. -/
def listConnections (st : GatewayState) (userId : Option String) :
    List ServiceConnection :=
  let connections := st.connections.map (fun p => p.2)
  if jsTruthyOpt userId then
    connections.filter (fun conn => conn.userId == userId)
  else
    connections.filter (fun conn => conn.state == ConnState.connected)

/-- `closeConnection`: an unknown id throws `CONNECTION_NOT_FOUND`; otherwise the
transport is disconnected (itself a no-op on unknown ids and non-throwing), the
state set to `disconnected`, and the entry removed from the registry. -/
def closeConnection (st : GatewayState) (connectionId : String) :
    Except AppError Unit × GatewayState :=
  match mapGet st.connections connectionId with
  | none =>
    (.error ⟨404, "Connection not found", "CONNECTION_NOT_FOUND", Details.none⟩, st)
  | some _connection =>
    (.ok (),
     { st with
       transports := TransportManager.disconnect st.transports connectionId
       connections := mapDel st.connections connectionId })

/-- `ConnectionManager.executeTool`: unknown id → `CONNECTION_NOT_FOUND`; state
other than `connected` → `CONNECTION_NOT_READY`, before any dispatch; otherwise
refresh `lastUsed` and delegate to the transport manager. -/
def executeTool (env : Env) (now : Nat) (st : GatewayState)
    (connectionId toolName : String) :
    Except AppError TransportManager.ToolOut × GatewayState × List NetEvent :=
  match mapGet st.connections connectionId with
  | none =>
    (.error ⟨404, "Connection not found", "CONNECTION_NOT_FOUND", Details.none⟩,
     st, [])
  | some connection =>
    if connection.state ≠ ConnState.connected then
      (.error ⟨400, "Connection not ready", "CONNECTION_NOT_READY", Details.none⟩,
       st, [])
    else
      let connection := { connection with lastUsed := now }
      let st :=
        { st with connections := mapSet st.connections connectionId connection }
      let r := TransportManager.executeTool env st.transports connectionId toolName
      (r.1, st, r.2)

end ConnectionManager

/-! ## Controllers (src/api/controllers) -/

namespace ConnectionsController

/-- `ConnectionsController.executeTool`: resolve the connection, require state
`connected`, require the tool to be in the discovered set (attaching the full
available-tool list on failure), then delegate. Inner `AppError`s are rethrown
unchanged by the controller's catch. The source's message quotes the tool name;
the quotes are omitted here. -/
def executeTool (env : Env) (now : Nat) (st : GatewayState)
    (connectionId toolName : String) :
    Except AppError TransportManager.ToolOut × GatewayState × List NetEvent :=
  match ConnectionManager.getConnection st connectionId with
  | none =>
    (.error ⟨404, "Connection not found", "CONNECTION_NOT_FOUND", Details.none⟩,
     st, [])
  | some connection =>
    if connection.state ≠ ConnState.connected then
      (.error ⟨400, "Connection not ready for tool execution",
         "CONNECTION_NOT_READY", Details.none⟩, st, [])
    else if !(connection.tools.any (fun tool => tool.name == toolName)) then
      (.error ⟨404, "Tool " ++ toolName ++ " not found on this service",
         "TOOL_NOT_FOUND",
         Details.availableTools (connection.tools.map (fun t => t.name))⟩, st, [])
    else
      ConnectionManager.executeTool env now st connectionId toolName

end ConnectionsController

namespace ServicesController

/-- The MCP-server heuristic of `connectToService`. -/
def isMCPServer (service : NANDAService) : Bool :=
  service.url != "" &&
    (includes service.url "awsapprunner.com" ||
     includes service.url "3.133.113.164" ||
     includes (lowerStr service.description) "sse" ||
     includes (lowerStr service.description) "mcp")

/-- The transport actually selected: `streamable-http` for detected MCP servers,
otherwise `service.protocols?.[0] || service.transport_type || 'http'`. Despite
the priority comment in the source, exactly one transport is chosen here. -/
def selectTransport (service : NANDAService) : String :=
  if isMCPServer service then "streamable-http"
  else jsOr (jsOr (service.protocols.headD "") service.transport_type) "http"

/-- `connectToService` (after the registry lookup, whose descriptor is given):
an auth-gated service (tag `evmauth` or `blockchain`) with no supplied auth
request fails with `EVMAUTH_REQUIRED` before `createConnection` is ever entered;
otherwise a single transport is selected and `createConnection` runs. -/
def connectToService (env : Env) (now : Nat) (connectionId tmId : String)
    (st : GatewayState) (service : NANDAService)
    (evmAuth : Option EVMAuthRequest) (timeout : Option Nat)
    (verifyHealth : Option Bool) :
    Except AppError ServiceConnection × GatewayState × List NetEvent :=
  let requiresEvmAuth :=
    service.tags.contains "evmauth" || service.tags.contains "blockchain"
  if requiresEvmAuth && evmAuth.isNone then
    (.error ⟨400, "This service requires EVMAuth authentication",
       "EVMAUTH_REQUIRED",
       Details.evmauthRequired ["walletAddress", "contractAddress", "tokenId"]
         env.envContract⟩, st, [])
  else
    ConnectionManager.createConnection env now connectionId tmId st
      { serviceId := service.id
        serviceName := service.name
        endpoint := jsOr service.url service.endpoint_url
        transport := selectTransport service
        evmAuth := evmAuth
        timeout := timeout
        verifyHealth := verifyHealth }

end ServicesController

/-! ## Concrete fixtures -/

/-- A benign environment every scenario overrides selectively. -/
def envBase : Env :=
  { envContract := "0xcccccccccccccccccccccccccccccccccccccccc"
    healthGet := fun _ => true
    messagePing := fun _ => true
    sseGet := fun _ => .ok ()
    wsOpen := fun _ => .ok ()
    callToolsList := fun _ => .ok []
    getTools := fun _ => .ok []
    messageToolsList := fun _ => .ok []
    wsToolsList := fun _ => .ok []
    callToolsCall := fun _ _ => .ok {}
    altToolPost := fun _ _ => .ok {}
    messageToolsCall := fun _ _ => .ok {}
    wsToolsCall := fun _ _ => .ok {}
    sseCallPost := fun _ _ => .ok {}
    sseAltPost := fun _ _ => .ok {}
    ethCall := fun _ _ => .error "network unreachable" }

/-- A registry descriptor declaring only the WebSocket transport, not matching the
MCP-server heuristic. -/
def svcWs : NANDAService :=
  { id := "svc-ws", name := "WS Service", url := "https://ws.example.com"
    endpoint_url := "https://ws.example.com", transport_type := "websocket" }

/-- An auth-gated descriptor (tagged `evmauth`). -/
def svcGated : NANDAService :=
  { id := "svc-gated", name := "Gated Service", tags := ["evmauth"]
    url := "https://gated.example.com", endpoint_url := "https://gated.example.com"
    transport_type := "http" }

/-- Environment in which every WebSocket handshake is refused. -/
def envWsDown : Env := { envBase with wsOpen := fun _ => .error "connection refused" }

/-- A connected connection record used by the close/execute scenarios. -/
def connA : ServiceConnection :=
  { id := "c-a", serviceId := "svc", serviceName := "Svc"
    state := ConnState.connected, transport := "http"
    endpoint := "https://api.example.com", createdAt := 0, lastUsed := 0 }

/-- A registry holding exactly `connA`. -/
def stOne : GatewayState := { connections := [("c-a", connA)] }

/-! ## Claim C1 -/

/-- Claim C1 (code bug, evaluated at the failing input): for a descriptor pinned to
no single supported kind in the spec's sense — here one declaring `websocket`,
with all four transports implemented — whose handshake fails,
`connectToService` attempts exactly one transport candidate
(`[transportAttempt "websocket"]`, never the four-candidate priority chain) and
fails with a bare `CONNECTION_FAILED` wrapping only the last (sole) attempt's
message, enumerating no attempt list. -/
theorem connectToService_single_candidate_bare_error :
    ServicesController.connectToService envWsDown 0 "conn-1" "tm-1" {} svcWs
        none none none
      = (Except.error
          ⟨500,
           "Failed to connect to service: WebSocket connection failed: connection refused",
           "CONNECTION_FAILED", Details.connectionFailed "svc-ws" "websocket"⟩,
         { connections :=
             [("conn-1",
               { id := "conn-1", serviceId := "svc-ws", serviceName := "WS Service"
                 state := ConnState.failed, transport := "websocket"
                 endpoint := "https://ws.example.com"
                 createdAt := 0, lastUsed := 0 })] },
         [NetEvent.transportAttempt "websocket"]) := by
  rfl

/-! ## Claim C2 -/

/-- Claim C2: a connect request for a descriptor with an auth-gated capability
(tag `evmauth` or `blockchain`) and no supplied auth request fails with the
`EVMAUTH_REQUIRED` code, performs zero network calls (no credential
verification, no transport attempt — the event trace is empty), and leaves the
whole state, in particular the connection registry, unchanged. -/
theorem connectToService_authRequired_no_network (env : Env) (now : Nat)
    (connectionId tmId : String) (st : GatewayState) (service : NANDAService)
    (timeout : Option Nat) (verifyHealth : Option Bool)
    (hgate : (service.tags.contains "evmauth" ||
              service.tags.contains "blockchain") = true) :
    ServicesController.connectToService env now connectionId tmId st service
        none timeout verifyHealth
      = (Except.error
          ⟨400, "This service requires EVMAuth authentication", "EVMAUTH_REQUIRED",
           Details.evmauthRequired ["walletAddress", "contractAddress", "tokenId"]
             env.envContract⟩,
         st, []) := by
  simp only [ServicesController.connectToService, hgate, Bool.true_and,
    Option.isNone_none, if_true]

/-- Witness for C2 at the concrete gated descriptor. -/
theorem connectToService_authRequired_no_network_witness :
    ServicesController.connectToService envBase 0 "conn-2" "tm-2" stOne svcGated
        none none none
      = (Except.error
          ⟨400, "This service requires EVMAuth authentication", "EVMAUTH_REQUIRED",
           Details.evmauthRequired ["walletAddress", "contractAddress", "tokenId"]
             "0xcccccccccccccccccccccccccccccccccccccccc"⟩,
         stOne, []) :=
  connectToService_authRequired_no_network envBase 0 "conn-2" "tm-2" stOne svcGated
    none none (by decide)

/-! ## Claim C3 -/

/-- Create-parameters pinned to the WebSocket transport. -/
def paramsWs : CreateConnectionParams :=
  { serviceId := "svc-ws", serviceName := "WS Service"
    endpoint := "https://ws.example.com", transport := "websocket" }

/-- Environment where the WebSocket handshake succeeds but the discovery round
trip times out. -/
def envWsDiscFail : Env :=
  { envBase with wsToolsList := fun _ => .error "WebSocket tool discovery timeout" }

/-- Create-parameters pinned to the plain HTTP transport. -/
def paramsHttp : CreateConnectionParams :=
  { serviceId := "svc-http", serviceName := "HTTP Service"
    endpoint := "https://api.example.com", transport := "http" }

/-- Environment where both HTTP discovery endpoints fail. -/
def envHttpDiscFail : Env :=
  { envBase with
    callToolsList := fun _ => .error "404 not found"
    getTools := fun _ => .error "404 not found" }

/-- Claim C3 counterexample: with a successfully established WebSocket session
whose capability-discovery call fails, `createConnection` does fail the
connection — it throws `CONNECTION_FAILED` and the registry records state
`failed`, never `connected` with an empty degraded tool set. -/
theorem createConnection_ws_discovery_failure_fails :
    errCode (ConnectionManager.createConnection envWsDiscFail 0 "c3" "tm-3" {}
        paramsWs).1 = some "CONNECTION_FAILED" ∧
    (mapGet (ConnectionManager.createConnection envWsDiscFail 0 "c3" "tm-3" {}
        paramsWs).2.1.connections "c3").map (fun c => c.state)
      = some ConnState.failed := by
  exact ⟨rfl, rfl⟩

/-- Claim C3 as amended: whether a discovery failure fails the connection depends
on the transport, and no degraded flag exists. For `http` (off the hardcoded
railway.app fallback), every failure of both discovery endpoints is swallowed:
the connection still reaches `connected` with an empty discovered-tool set and
nothing in the stored record marks discovery as degraded. For `websocket`, a
discovery failure fails the connection: `CONNECTION_FAILED` is thrown and the
registry records state `failed`. -/
theorem createConnection_discovery_degradation :
    (∀ (env : Env) (now : Nat) (connectionId tmId : String) (st : GatewayState)
       (params : CreateConnectionParams),
       params.transport = "http" → params.evmAuth = none →
       includes params.endpoint "railway.app" = false →
       isErr (env.callToolsList params.endpoint) = true →
       isErr (env.getTools params.endpoint) = true →
       ∃ conn,
         (ConnectionManager.createConnection env now connectionId tmId st
             params).1 = Except.ok conn ∧
         conn.state = ConnState.connected ∧ conn.tools = [] ∧
         mapGet (ConnectionManager.createConnection env now connectionId tmId st
             params).2.1.connections connectionId = some conn) ∧
    (∀ (env : Env) (now : Nat) (connectionId tmId : String) (st : GatewayState)
       (params : CreateConnectionParams) (m : String),
       params.transport = "websocket" → params.evmAuth = none →
       includes params.endpoint "railway.app" = false →
       env.wsOpen (TransportManager.wsUrl params.endpoint) = Except.ok () →
       env.wsToolsList params.endpoint = Except.error m →
       errCode (ConnectionManager.createConnection env now connectionId tmId st
           params).1 = some "CONNECTION_FAILED" ∧
       (mapGet (ConnectionManager.createConnection env now connectionId tmId st
           params).2.1.connections connectionId).map (fun c => c.state)
         = some ConnState.failed) := by
  constructor
  · intro env now connectionId tmId st params ht ha hrail h1 h2
    simp only [ConnectionManager.createConnection, ha,
      ConnectionManager.createConnectionRest, TransportManager.connect, ht,
      TransportManager.connectHTTP_ok, TransportManager.discoverTools,
      TransportManager.discoverHTTPTools, Bool.not_true, Bool.false_eq_true,
      if_false]
    cases h1' : env.callToolsList params.endpoint with
    | ok ts => rw [h1'] at h1; simp [isErr] at h1
    | error m1 =>
      cases h2' : env.getTools params.endpoint with
      | ok ts => rw [h2'] at h2; simp [isErr] at h2
      | error m2 =>
        simp only [h1', h2', hrail, Bool.false_eq_true, if_false]
        exact ⟨_, rfl, rfl, rfl, mapGet_mapSet_self _ _ _⟩
  · intro env now connectionId tmId st params m ht ha hrail hopen hdisc
    simp only [ConnectionManager.createConnection, ha,
      ConnectionManager.createConnectionRest, TransportManager.connect, ht,
      TransportManager.connectWebSocket, hopen,
      TransportManager.discoverTools, TransportManager.discoverWebSocketTools,
      hdisc, hrail, Bool.not_true, Bool.false_eq_true, if_false,
      ConnectionManager.connectionFailed]
    exact ⟨rfl, by rw [mapGet_mapSet_self]; rfl⟩

/-- Witness for the amended C3: the `http` half at an endpoint whose two discovery
endpoints both fail, and the `websocket` half at the discovery-timeout
environment. -/
theorem createConnection_discovery_degradation_witness :
    (∃ conn,
       (ConnectionManager.createConnection envHttpDiscFail 0 "c3h" "tm-3h" {}
           paramsHttp).1 = Except.ok conn ∧
       conn.state = ConnState.connected ∧ conn.tools = [] ∧
       mapGet (ConnectionManager.createConnection envHttpDiscFail 0 "c3h" "tm-3h" {}
           paramsHttp).2.1.connections "c3h" = some conn) ∧
    (errCode (ConnectionManager.createConnection envWsDiscFail 0 "c3w" "tm-3w" {}
         paramsWs).1 = some "CONNECTION_FAILED" ∧
     (mapGet (ConnectionManager.createConnection envWsDiscFail 0 "c3w" "tm-3w" {}
         paramsWs).2.1.connections "c3w").map (fun c => c.state)
       = some ConnState.failed) :=
  ⟨createConnection_discovery_degradation.1 envHttpDiscFail 0 "c3h" "tm-3h" {}
     paramsHttp rfl rfl (by decide) rfl rfl,
   createConnection_discovery_degradation.2 envWsDiscFail 0 "c3w" "tm-3w" {}
     paramsWs "WebSocket tool discovery timeout" rfl rfl (by decide) rfl rfl⟩

/-! ## Claim C4 -/

/-- Claim C4 counterexample: closing an unknown id is not a no-op — it raises
`CONNECTION_NOT_FOUND` — so `closeConnection` is not idempotent as claimed. -/
theorem closeConnection_unknown_id_errors :
    ConnectionManager.closeConnection {} "missing-id"
      = (Except.error
          ⟨404, "Connection not found", "CONNECTION_NOT_FOUND", Details.none⟩,
         {}) := by
  rfl

/-- Claim C4 as amended: `closeConnection` on an unknown or already-closed id
raises `CONNECTION_NOT_FOUND` (404) and changes nothing; a successful close
removes the entry, so a second close of the same id also raises
`CONNECTION_NOT_FOUND` rather than succeeding as a no-op. -/
theorem closeConnection_not_idempotent :
    (∀ (st : GatewayState) (connectionId : String),
       mapGet st.connections connectionId = none →
       ConnectionManager.closeConnection st connectionId
         = (Except.error
             ⟨404, "Connection not found", "CONNECTION_NOT_FOUND", Details.none⟩,
            st)) ∧
    (∀ (st : GatewayState) (connectionId : String) (conn : ServiceConnection),
       mapGet st.connections connectionId = some conn →
       (ConnectionManager.closeConnection st connectionId).1 = Except.ok () ∧
       (ConnectionManager.closeConnection
           (ConnectionManager.closeConnection st connectionId).2 connectionId).1
         = Except.error
             ⟨404, "Connection not found", "CONNECTION_NOT_FOUND", Details.none⟩) := by
  constructor
  · intro st connectionId h
    simp [ConnectionManager.closeConnection, h]
  · intro st connectionId conn h
    simp [ConnectionManager.closeConnection, h, mapGet_mapDel_self]

/-- Witness for the amended C4 on a one-entry registry. -/
theorem closeConnection_not_idempotent_witness :
    (ConnectionManager.closeConnection stOne "c-a").1 = Except.ok () ∧
    (ConnectionManager.closeConnection
        (ConnectionManager.closeConnection stOne "c-a").2 "c-a").1
      = Except.error
          ⟨404, "Connection not found", "CONNECTION_NOT_FOUND", Details.none⟩ :=
  closeConnection_not_idempotent.2 stOne "c-a" connA (by decide)

/-! ## Claim C5 -/

/-- A live streamable-http transport connection. -/
def tcStream : TransportConnection :=
  { id := "c5", endpoint := "https://s.example.com"
    transport := "streamable-http", client := true }

/-- A transport map holding exactly `tcStream`. -/
def tpsStream : List (String × TransportConnection) := [("c5", tcStream)]

/-- Environment whose remote reports a protocol-level error payload on tool calls. -/
def envRemoteErr : Env :=
  { envBase with
    messageToolsCall := fun _ _ => .ok { error := some "division by zero" } }

/-- Environment whose tool-call network request itself fails. -/
def envNetFail : Env :=
  { envBase with messageToolsCall := fun _ _ => .error "socket hang up" }

/-- Claim C5 counterexample: a remote protocol-level error payload and a
network/transport failure surface to the caller under the same machine-readable
code `TOOL_EXECUTION_FAILED` — the two categories are collapsed, distinguishable
only by message text. -/
theorem executeTool_error_categories_collapse :
    errCode (TransportManager.executeTool envRemoteErr tpsStream "c5" "add").1
      = some "TOOL_EXECUTION_FAILED" ∧
    errCode (TransportManager.executeTool envNetFail tpsStream "c5" "add").1
      = some "TOOL_EXECUTION_FAILED" := by
  exact ⟨rfl, rfl⟩

/-- Claim C5 as amended: local validation failures do keep a distinct code
(`TOOL_NOT_FOUND`, likewise `CONNECTION_NOT_FOUND` / `CONNECTION_NOT_READY`
before any dispatch), but the transport manager's catch-all wraps both remote
protocol-level errors and network/transport failures into the single code
`TOOL_EXECUTION_FAILED`, so only two of the three claimed categories are
distinguishable by code. -/
theorem executeTool_error_code_partition :
    (∀ (env : Env) (tps : List (String × TransportConnection))
       (connectionId toolName : String) (tc : TransportConnection)
       (reply : RpcReply) (m : String),
       mapGet tps connectionId = some tc → tc.transport = "streamable-http" →
       tc.client = true →
       env.messageToolsCall tc.endpoint toolName = Except.ok reply →
       reply.error = some m →
       errCode (TransportManager.executeTool env tps connectionId toolName).1
         = some "TOOL_EXECUTION_FAILED") ∧
    (∀ (env : Env) (tps : List (String × TransportConnection))
       (connectionId toolName : String) (tc : TransportConnection) (m : String),
       mapGet tps connectionId = some tc → tc.transport = "streamable-http" →
       tc.client = true →
       env.messageToolsCall tc.endpoint toolName = Except.error m →
       errCode (TransportManager.executeTool env tps connectionId toolName).1
         = some "TOOL_EXECUTION_FAILED") ∧
    (∀ (env : Env) (now : Nat) (st : GatewayState)
       (connectionId toolName : String) (conn : ServiceConnection),
       mapGet st.connections connectionId = some conn →
       conn.state = ConnState.connected →
       conn.tools.any (fun tool => tool.name == toolName) = false →
       errCode (ConnectionsController.executeTool env now st connectionId
           toolName).1 = some "TOOL_NOT_FOUND") := by
  refine ⟨?_, ?_, ?_⟩
  · intro env tps connectionId toolName tc reply m hget htr hcl hcall herr
    simp only [TransportManager.executeTool, hget, htr,
      TransportManager.executeStreamableHTTPTool, hcl, hcall, herr,
      Bool.not_true, Bool.false_eq_true, if_false, errCode]
  · intro env tps connectionId toolName tc m hget htr hcl hcall
    simp only [TransportManager.executeTool, hget, htr,
      TransportManager.executeStreamableHTTPTool, hcl, hcall,
      Bool.not_true, Bool.false_eq_true, if_false, errCode]
  · intro env now st connectionId toolName conn hget hst hmiss
    simp only [ConnectionsController.executeTool,
      ConnectionManager.getConnection, hget, hst, hmiss, Bool.not_false,
      if_true, errCode, ne_eq, not_true_eq_false, if_false, reduceIte]

/-- Witness for the amended C5 at the concrete collapse scenarios plus a
validation failure on a connected registry entry with no tools. -/
theorem executeTool_error_code_partition_witness :
    errCode (TransportManager.executeTool envRemoteErr tpsStream "c5" "add").1
      = some "TOOL_EXECUTION_FAILED" ∧
    errCode (TransportManager.executeTool envNetFail tpsStream "c5" "add").1
      = some "TOOL_EXECUTION_FAILED" ∧
    errCode (ConnectionsController.executeTool envBase 0 stOne "c-a" "echo").1
      = some "TOOL_NOT_FOUND" :=
  ⟨executeTool_error_code_partition.1 envRemoteErr tpsStream "c5" "add" tcStream
     { error := some "division by zero" } "division by zero" rfl rfl rfl rfl rfl,
   executeTool_error_code_partition.2.1 envNetFail tpsStream "c5" "add" tcStream
     "socket hang up" rfl rfl rfl rfl,
   executeTool_error_code_partition.2.2 envBase 0 stOne "c-a" "echo" connA
     rfl rfl rfl⟩

/-! ## Claim C6 -/

/-- SSE connect parameters. -/
def pSse : ConnectParams :=
  { endpoint := "https://sse.example.com", transport := "sse", timeout := 30000 }

/-- Environment where the SSE endpoint's reachability probe fails. -/
def envSseDown : Env :=
  { envBase with sseGet := fun _ => .error "getaddrinfo ENOTFOUND" }

/-- Environment where both best-effort probes fail. -/
def envProbesDown : Env :=
  { envBase with healthGet := fun _ => false, messagePing := fun _ => false }

/-- Claim C6 counterexample: for the SSE transport the pre-connect probe
(`GET {sseUrl}`) is not best-effort — its failure aborts establishment with an
error instead of producing the session. -/
theorem connect_sse_probe_aborts :
    (TransportManager.connect envSseDown [] "tm-6" pSse).1
      = Except.error "SSE endpoint not reachable: getaddrinfo ENOTFOUND" := by
  rfl

/-- Claim C6 as amended: only the `http` and `streamable-http` transports carry a
best-effort liveness probe whose failure is merely logged — establishment still
produces the session. For `sse`, the reachability test's failure aborts
establishment (and `websocket` performs no probe at all). -/
theorem connect_probe_behavior :
    (∀ (env : Env) (tps : List (String × TransportConnection))
       (tmId : String) (p : ConnectParams),
       p.transport = "http" → env.healthGet p.endpoint = false →
       ∃ tc, (TransportManager.connect env tps tmId p).1 = Except.ok tc ∧
         tc.client = true) ∧
    (∀ (env : Env) (tps : List (String × TransportConnection))
       (tmId : String) (p : ConnectParams),
       p.transport = "streamable-http" → env.messagePing p.endpoint = false →
       ∃ tc, (TransportManager.connect env tps tmId p).1 = Except.ok tc ∧
         tc.client = true) ∧
    (∀ (env : Env) (tps : List (String × TransportConnection))
       (tmId : String) (p : ConnectParams) (m : String),
       p.transport = "sse" →
       env.sseGet (TransportManager.sseUrl p.endpoint) = Except.error m →
       (TransportManager.connect env tps tmId p).1
         = Except.error ("SSE endpoint not reachable: " ++ m)) := by
  refine ⟨?_, ?_, ?_⟩
  · intro env tps tmId p ht _hprobe
    simp only [TransportManager.connect, ht, TransportManager.connectHTTP_ok]
    exact ⟨_, rfl, rfl⟩
  · intro env tps tmId p ht _hprobe
    simp only [TransportManager.connect, ht,
      TransportManager.connectStreamableHTTP_ok]
    exact ⟨_, rfl, rfl⟩
  · intro env tps tmId p m ht hprobe
    simp only [TransportManager.connect, ht, TransportManager.connectSSE, hprobe]

/-- Witness for the amended C6 at concrete failing probes. -/
theorem connect_probe_behavior_witness :
    (∃ tc, (TransportManager.connect envProbesDown [] "tm-6h"
        { endpoint := "https://h.example.com", transport := "http",
          timeout := 30000 }).1 = Except.ok tc ∧ tc.client = true) ∧
    (∃ tc, (TransportManager.connect envProbesDown [] "tm-6s"
        { endpoint := "https://h.example.com", transport := "streamable-http",
          timeout := 30000 }).1 = Except.ok tc ∧ tc.client = true) ∧
    (TransportManager.connect envSseDown [] "tm-6e" pSse).1
      = Except.error "SSE endpoint not reachable: getaddrinfo ENOTFOUND" :=
  ⟨connect_probe_behavior.1 envProbesDown [] "tm-6h"
     { endpoint := "https://h.example.com", transport := "http",
       timeout := 30000 } rfl rfl,
   connect_probe_behavior.2.1 envProbesDown [] "tm-6s"
     { endpoint := "https://h.example.com", transport := "streamable-http",
       timeout := 30000 } rfl rfl,
   connect_probe_behavior.2.2 envSseDown [] "tm-6e" pSse
     "getaddrinfo ENOTFOUND" rfl rfl⟩

/-! ## Claim C7 -/

/-- Claim C7: an `executeTool` call on an existing connection whose state is not
`connected` (initializing, authenticating, failed, or disconnected) is rejected
with the not-ready code by both the connection manager and the controller,
with no dispatch to the transport session (empty event trace) and no state
change. -/
theorem executeTool_requires_connected_state (env : Env) (now : Nat)
    (st : GatewayState) (connectionId toolName : String)
    (conn : ServiceConnection)
    (hc : mapGet st.connections connectionId = some conn)
    (hs : conn.state ≠ ConnState.connected) :
    ConnectionManager.executeTool env now st connectionId toolName
      = (Except.error
          ⟨400, "Connection not ready", "CONNECTION_NOT_READY", Details.none⟩,
         st, []) ∧
    ConnectionsController.executeTool env now st connectionId toolName
      = (Except.error
          ⟨400, "Connection not ready for tool execution", "CONNECTION_NOT_READY",
           Details.none⟩, st, []) := by
  constructor
  · simp only [ConnectionManager.executeTool, hc, if_pos hs]
  · simp only [ConnectionsController.executeTool,
      ConnectionManager.getConnection, hc, if_pos hs]

/-- A connection still in the `initializing` state. -/
def connInit : ServiceConnection :=
  { connA with id := "c-i", state := ConnState.initializing }

/-- A registry holding exactly `connInit`. -/
def stInit : GatewayState := { connections := [("c-i", connInit)] }

/-- Witness for C7 on an initializing connection. -/
theorem executeTool_requires_connected_state_witness :
    ConnectionManager.executeTool envBase 3 stInit "c-i" "echo"
      = (Except.error
          ⟨400, "Connection not ready", "CONNECTION_NOT_READY", Details.none⟩,
         stInit, []) ∧
    ConnectionsController.executeTool envBase 3 stInit "c-i" "echo"
      = (Except.error
          ⟨400, "Connection not ready for tool execution", "CONNECTION_NOT_READY",
           Details.none⟩, stInit, []) :=
  executeTool_requires_connected_state envBase 3 stInit "c-i" "echo" connInit
    rfl (by decide)

/-! ## Claim C8 -/

theorem notConnected_not_listed (st : GatewayState) (conn : ServiceConnection)
    (h : conn.state ≠ ConnState.connected) :
    conn ∉ ConnectionManager.listConnections st none := by
  intro hmem
  simp [ConnectionManager.listConnections, jsTruthyOpt, List.mem_filter] at hmem
  exact h hmem.2

theorem connectionFailed_spec (params : CreateConnectionParams)
    (connectionId : String) (connection : ServiceConnection) (st : GatewayState)
    (evs : List NetEvent) (msg : String) :
    isErr (ConnectionManager.connectionFailed params connectionId connection st
        evs msg).1 = true ∧
    ∃ c,
      mapGet (ConnectionManager.connectionFailed params connectionId connection st
          evs msg).2.1.connections connectionId = some c ∧
      c.state = ConnState.failed ∧
      c ∉ ConnectionManager.listConnections
        (ConnectionManager.connectionFailed params connectionId connection st
          evs msg).2.1 none := by
  refine ⟨rfl, { connection with state := ConnState.failed }, ?_, rfl, ?_⟩
  · exact mapGet_mapSet_self _ _ _
  · exact notConnected_not_listed _ _ (by simp)

theorem createConnectionRest_failure_spec (env : Env) (tmId connectionId : String)
    (st : GatewayState) (params : CreateConnectionParams)
    (connection : ServiceConnection) (evs : List NetEvent)
    (r : Except AppError ServiceConnection × GatewayState × List NetEvent)
    (hr : ConnectionManager.createConnectionRest env tmId connectionId st params
        connection evs = r)
    (herr : isErr r.1 = true) :
    ∃ c, mapGet r.2.1.connections connectionId = some c ∧
      c.state = ConnState.failed ∧
      c ∉ ConnectionManager.listConnections r.2.1 none := by
  simp only [ConnectionManager.createConnectionRest] at hr
  split at hr
  · subst hr
    exact (connectionFailed_spec _ _ _ _ _ _).2
  · split at hr
    · subst hr
      exact (connectionFailed_spec _ _ _ _ _ _).2
    · subst hr
      simp [isErr] at herr

/-- Claim C8 counterexample: a `createConnection` that ends in unrecoverable
failure stores the `failed` connection in the registry instead of removing it —
the registry does hold a terminally failed connection. -/
theorem createConnection_failed_retained :
    isErr (ConnectionManager.createConnection envWsDown 0 "c8" "tm-8" {}
        paramsWs).1 = true ∧
    (mapGet (ConnectionManager.createConnection envWsDown 0 "c8" "tm-8" {}
        paramsWs).2.1.connections "c8").map (fun c => c.state)
      = some ConnState.failed := by
  exact ⟨rfl, rfl⟩

/-- Claim C8 as amended: a `createConnection` call that ends in unrecoverable
failure inserts the connection, marked `failed`, into the registry and retains
it there; the failed entry is merely excluded from the default
`listConnections` view (which filters for state `connected`) while remaining
reachable by id. -/
theorem createConnection_failure_registry_behavior (env : Env) (now : Nat)
    (connectionId tmId : String) (st : GatewayState)
    (params : CreateConnectionParams)
    (r : Except AppError ServiceConnection × GatewayState × List NetEvent)
    (hr : ConnectionManager.createConnection env now connectionId tmId st params
        = r)
    (hfail : isErr r.1 = true) :
    ∃ conn, mapGet r.2.1.connections connectionId = some conn ∧
      conn.state = ConnState.failed ∧
      conn ∉ ConnectionManager.listConnections r.2.1 none := by
  cases hA : params.evmAuth with
  | none =>
    simp only [ConnectionManager.createConnection, hA] at hr
    exact createConnectionRest_failure_spec _ _ _ _ _ _ _ _ hr hfail
  | some req =>
    simp only [ConnectionManager.createConnection, hA] at hr
    split at hr
    · subst hr
      exact (connectionFailed_spec _ _ _ _ _ _).2
    · exact createConnectionRest_failure_spec _ _ _ _ _ _ _ _ hr hfail

/-- Witness for the amended C8 at the refused-WebSocket scenario. -/
theorem createConnection_failure_registry_behavior_witness :
    ∃ conn,
      mapGet (ConnectionManager.createConnection envWsDown 0 "c8w" "tm-8w" {}
          paramsWs).2.1.connections "c8w" = some conn ∧
      conn.state = ConnState.failed ∧
      conn ∉ ConnectionManager.listConnections
        (ConnectionManager.createConnection envWsDown 0 "c8w" "tm-8w" {}
          paramsWs).2.1 none :=
  createConnection_failure_registry_behavior envWsDown 0 "c8w" "tm-8w" {}
    paramsWs _ rfl rfl

/-! ## Claim C9 -/

/-- Claim C9: an `executeTool` call naming a tool outside the connection's
discovered tool set fails with `TOOL_NOT_FOUND`, its details carrying the full
list of the connection's actually discovered tool names, with no dispatch and
no state change. -/
theorem executeTool_unknown_tool_not_found (env : Env) (now : Nat)
    (st : GatewayState) (connectionId toolName : String)
    (conn : ServiceConnection)
    (hc : mapGet st.connections connectionId = some conn)
    (hs : conn.state = ConnState.connected)
    (hmiss : conn.tools.any (fun tool => tool.name == toolName) = false) :
    ConnectionsController.executeTool env now st connectionId toolName
      = (Except.error
          ⟨404, "Tool " ++ toolName ++ " not found on this service",
           "TOOL_NOT_FOUND",
           Details.availableTools (conn.tools.map (fun t => t.name))⟩,
         st, []) := by
  simp only [ConnectionsController.executeTool, ConnectionManager.getConnection,
    hc, hs, hmiss, ne_eq, not_true_eq_false, if_false, Bool.not_false, if_true,
    reduceIte]

/-- Witness for C9: the connected `connA` has no discovered tools, so `echo` is
rejected with the (empty) available-tool list attached. -/
theorem executeTool_unknown_tool_not_found_witness :
    ConnectionsController.executeTool envBase 0 stOne "c-a" "echo"
      = (Except.error
          ⟨404, "Tool echo not found on this service", "TOOL_NOT_FOUND",
           Details.availableTools []⟩,
         stOne, []) :=
  executeTool_unknown_tool_not_found envBase 0 stOne "c-a" "echo" connA
    rfl rfl rfl

/-! ## Claim C10 -/

/-- Claim C10: every session minted by `verifyAuth` is verified and expires
exactly 24 hours (86 400 000 ms) after its verification instant; `getSession`
returns a stored session only while its expiry lies strictly in the future
(leaving the cache untouched), and otherwise returns `null` with the entry for
that key absent afterwards (expired entries are deleted). -/
theorem evmauth_session_invariants :
    (∀ (env : Env) (now : Nat) (sessions : List (String × EVMAuthSession))
       (request : EVMAuthRequest) (s : EVMAuthSession)
       (sessions2 : List (String × EVMAuthSession)),
       EVMAuthService.verifyAuth env now sessions request
         = (Except.ok s, sessions2) →
       s.verified = true ∧ s.expiresAt = s.verifiedAt + 24 * 60 * 60 * 1000) ∧
    (∀ (now : Nat) (sessions : List (String × EVMAuthSession))
       (walletAddress contractAddress tokenId : String) (s : EVMAuthSession)
       (sessions2 : List (String × EVMAuthSession)),
       EVMAuthService.getSession now sessions walletAddress contractAddress
           tokenId = (some s, sessions2) →
       now < s.expiresAt ∧ sessions2 = sessions) ∧
    (∀ (now : Nat) (sessions : List (String × EVMAuthSession))
       (walletAddress contractAddress tokenId : String)
       (sessions2 : List (String × EVMAuthSession)),
       EVMAuthService.getSession now sessions walletAddress contractAddress
           tokenId = (none, sessions2) →
       mapGet sessions2
         (EVMAuthService.sessionKey walletAddress contractAddress tokenId)
         = none) := by
  refine ⟨?_, ?_, ?_⟩
  · intro env now sessions request s sessions2 h
    simp only [EVMAuthService.verifyAuth] at h
    split at h
    · exact absurd h (by simp)
    · split at h
      · exact absurd h (by simp)
      · split at h
        · exact absurd h (by simp)
        · obtain ⟨hs, -⟩ := Prod.mk.injEq .. ▸ h
          obtain rfl := (Except.ok.injEq ..).mp hs
          exact ⟨rfl, rfl⟩
  · intro now sessions walletAddress contractAddress tokenId s sessions2 h
    simp only [EVMAuthService.getSession] at h
    split at h
    · split at h
      · obtain ⟨hs, hsess⟩ := Prod.mk.injEq .. ▸ h
        obtain rfl := (Option.some.injEq ..).mp hs
        next hlt _ => exact ⟨by assumption, hsess.symm⟩
      · exact absurd h (by simp)
    · exact absurd h (by simp)
  · intro now sessions walletAddress contractAddress tokenId sessions2 h
    simp only [EVMAuthService.getSession] at h
    split at h
    · split at h
      · exact absurd h (by simp)
      · obtain ⟨-, hsess⟩ := Prod.mk.injEq .. ▸ h
        rw [← hsess]
        exact mapGet_mapDel_self _ _
    · next hnone =>
      obtain ⟨-, hsess⟩ := Prod.mk.injEq .. ▸ h
      rw [← hsess]
      exact hnone

/-- A wallet address owning the token in `envAuthOk`. -/
def walletA : String := "0xaaaaaaaaaaaaaaaaaaaaaaaaaaaaaaaaaaaaaaaa"

/-- A token contract address. -/
def contractB : String := "0xbbbbbbbbbbbbbbbbbbbbbbbbbbbbbbbbbbbbbbbb"

/-- Environment whose `eth_call` reports `walletA` as the token's owner. -/
def envAuthOk : Env :=
  { envBase with
    ethCall := fun _ _ =>
      .ok { result :=
        "0x000000000000000000000000aaaaaaaaaaaaaaaaaaaaaaaaaaaaaaaaaaaaaaaa" } }

/-- An auth request for `walletA` against `contractB` (defaulted token id). -/
def reqA : EVMAuthRequest :=
  { walletAddress := walletA, contractAddress := some contractB }

/-- The session `verifyAuth` mints for `reqA` at instant 5. -/
def sessA : EVMAuthSession :=
  { walletAddress := walletA, contractAddress := contractB, tokenId := "0"
    verified := true, verifiedAt := 5, expiresAt := 5 + 24 * 60 * 60 * 1000 }

/-- A cached session expiring at instant 10. -/
def sessValid : EVMAuthSession :=
  { walletAddress := walletA, contractAddress := contractB, tokenId := "0"
    verified := true, verifiedAt := 0, expiresAt := 10 }

/-- A session cache holding exactly `sessValid`. -/
def sessionsV : List (String × EVMAuthSession) :=
  [(EVMAuthService.sessionKey walletA contractB "0", sessValid)]

/-- Witness for C10: a concrete successful `verifyAuth`, a `getSession` hit before
expiry, and a `getSession` miss after expiry that deletes the entry. -/
theorem evmauth_session_invariants_witness :
    (sessA.verified = true ∧
     sessA.expiresAt = sessA.verifiedAt + 24 * 60 * 60 * 1000) ∧
    (5 < sessValid.expiresAt ∧ sessionsV = sessionsV) ∧
    mapGet ([] : List (String × EVMAuthSession))
      (EVMAuthService.sessionKey walletA contractB "0") = none :=
  ⟨evmauth_session_invariants.1 envAuthOk 5 [] reqA sessA
     (mapSet [] (EVMAuthService.sessionKey walletA contractB "undefined") sessA)
     rfl,
   evmauth_session_invariants.2.1 5 sessionsV walletA contractB "0" sessValid
     sessionsV rfl,
   evmauth_session_invariants.2.2 20 sessionsV walletA contractB "0" [] rfl⟩

end Nanda
